import Mathlib

/-!
Verification of the localized text-normalization layer and the comment
extraction logic of the `app_scraper` repository.

The Python sources (`scraper/utils.py`, `scraper/scraper.py`) are shallowly
embedded below.  Python strings are modelled as `List Char`; Python's `None`
is `Option.none`; a Python function that can raise an uncaught exception is
modelled with an `Option` result where `none` stands for the raised
exception.  Machine floats appear only through `float(...)` applied to short
decimal literals and are modelled as exact decimal values; every input
considered here is exactly representable, so no rounding error is lost.
-/

namespace AppScraper

/-- ASCII whitespace used by Python `str.strip()` / `str.split()`. -/
def pyIsSpace (c : Char) : Bool :=
  c = ' ' || c = '\t' || c = '\n' || c = '\r' || c = Char.ofNat 11 || c = Char.ofNat 12

/-- Python `str.strip()` with no argument. -/
def pyStrip (l : List Char) : List Char :=
  ((l.dropWhile pyIsSpace).reverse.dropWhile pyIsSpace).reverse

/-- Python `str.lower()`, restricted to ASCII letters (the Persian letters
appearing in the inputs have no case, so `lower` fixes them, as here). -/
def pyLower (l : List Char) : List Char := l.map Char.toLower

def splitWsAux : List Char → List Char → List (List Char)
  | [], acc => if acc.isEmpty then [] else [acc.reverse]
  | c :: rest, acc =>
    if pyIsSpace c then
      if acc.isEmpty then splitWsAux rest [] else acc.reverse :: splitWsAux rest []
    else splitWsAux rest (c :: acc)

/-- Python `str.split()` with no argument: split on whitespace runs and drop
empty parts. -/
def pySplitWs (l : List Char) : List (List Char) := splitWsAux l []

def splitSlashAux : List Char → List Char → List (List Char)
  | [], acc => [acc.reverse]
  | c :: rest, acc =>
    if c = '/' then acc.reverse :: splitSlashAux rest []
    else splitSlashAux rest (c :: acc)

/-- Python `str.split("/")`. -/
def splitOnSlash (l : List Char) : List (List Char) := splitSlashAux l []

def pyReplaceAux (pat rep : List Char) : Nat → List Char → List Char
  | _, [] => []
  | 0, s => s
  | fuel + 1, c :: rest =>
    if pat.isPrefixOf (c :: rest) then
      rep ++ pyReplaceAux pat rep fuel (List.drop (pat.length - 1) rest)
    else
      c :: pyReplaceAux pat rep fuel rest

/-- Python `str.replace(pat, rep)`: replace all non-overlapping occurrences,
left to right.  Every call site in the sources uses a nonempty pattern, for
which the fuel `s.length` suffices. -/
def pyReplace (s pat rep : List Char) : List Char :=
  if pat.isEmpty then s else pyReplaceAux pat rep s.length s

/-- Python `pat in s` substring containment: `pat` occurs at some position. -/
def containsSub (pat : List Char) : List Char → Bool
  | [] => pat.isEmpty
  | c :: rest => pat.isPrefixOf (c :: rest) || containsSub pat rest

def isAsciiDigit (c : Char) : Bool := '0' ≤ c && c ≤ '9'

def digitsVal : List Char → Nat → Nat
  | [], acc => acc
  | c :: rest, acc => digitsVal rest (acc * 10 + (c.toNat - 48))

/-- A nonempty run of ASCII decimal digits, with its value. -/
def digitRun? (l : List Char) : Option Nat :=
  if !l.isEmpty && l.all isAsciiDigit then some (digitsVal l 0) else none

/-- Python `int(str)`: optional surrounding whitespace, optional sign, then a
nonempty digit run.  (Digit characters are restricted to ASCII; by the time
`int` is reached in these sources, Persian digits have been translated.) -/
def pyInt? (l : List Char) : Option Int :=
  match pyStrip l with
  | '-' :: rest => (digitRun? rest).map (fun n => -(n : Int))
  | '+' :: rest => (digitRun? rest).map (fun n => (n : Int))
  | t => (digitRun? t).map (fun n => (n : Int))

def expVal? : List Char → Option Int
  | '+' :: rest => (digitRun? rest).map (fun n => (n : Int))
  | '-' :: rest => (digitRun? rest).map (fun n => -(n : Int))
  | l => (digitRun? l).map (fun n => (n : Int))

/-- An exact decimal value `num / den` (`den` a positive power of ten): the
value of Python `float(...)` on the decimal literals these sources meet,
kept unreduced so every operation is primitive integer arithmetic. -/
abbrev DecFloat := Int × Nat

/-- `digits [. digits]` with at least one digit overall, as an exact
decimal. -/
def mantissa? (l : List Char) : Option DecFloat :=
  let ip := l.takeWhile isAsciiDigit
  let rest := l.drop ip.length
  match rest with
  | '.' :: frac =>
    let fp := frac.takeWhile isAsciiDigit
    if (frac.drop fp.length).isEmpty && (!ip.isEmpty || !fp.isEmpty) then
      some ((digitsVal ip 0 * 10 ^ fp.length + digitsVal fp 0 : Int), 10 ^ fp.length)
    else none
  | [] => if ip.isEmpty then none else some ((digitsVal ip 0 : Int), 1)
  | _ => none

def splitMantissaExp (l : List Char) : List Char × Option (List Char) :=
  match l.span (fun c => c ≠ 'e' && c ≠ 'E') with
  | (m, []) => (m, none)
  | (m, _ :: e) => (m, some e)

def applyExp (v : DecFloat) (e : Int) : DecFloat :=
  if 0 ≤ e then (v.1 * (10 ^ e.toNat : Nat), v.2) else (v.1, v.2 * 10 ^ (-e).toNat)

/-- Python `float(str)` over exact decimals: optional whitespace and sign,
`digits[.digits]` with at least one digit, optional decimal exponent.  The
special spellings `inf` / `nan` are not used by any input considered. -/
def pyFloat? (l : List Char) : Option DecFloat :=
  let t := pyStrip l
  let sb : Int × List Char :=
    match t with
    | '-' :: rest => (-1, rest)
    | '+' :: rest => (1, rest)
    | _ => (1, t)
  match splitMantissaExp sb.2 with
  | (m, none) => (mantissa? m).map (fun v => (sb.1 * v.1, v.2))
  | (m, some e) =>
    match mantissa? m, expVal? e with
    | some v, some ex =>
      some (((applyExp v ex).1 * sb.1, (applyExp v ex).2))
    | _, _ => none

/-- Python `int()` applied to a float value: truncation toward zero,
realised with natural-number division on each sign. -/
def decTrunc (v : DecFloat) : Int :=
  if 0 ≤ v.1 then (v.1.toNat / v.2 : Nat) else -((((-v.1).toNat / v.2 : Nat) : Int))

/-- `utils.convert_persian_digits_to_english`, per character: the ten
Extended Arabic-Indic digits U+06F0..U+06F9 map to ASCII digits, everything
else passes through. -/
def persianDigitToEnglish (c : Char) : Char :=
  if 0x6F0 ≤ c.toNat && c.toNat ≤ 0x6F9 then Char.ofNat (c.toNat - 0x6F0 + 48) else c

/-- `utils.convert_persian_digits_to_english`. -/
def convert_persian_digits_to_english (l : List Char) : List Char :=
  l.map persianDigitToEnglish

/-- `utils.contains_persian`: true when some character of the raw string lies
in the Unicode block U+0600..U+06FF (the regex search for that range). -/
def contains_persian (s : String) : Bool :=
  s.data.any (fun c => 0x600 ≤ c.toNat && c.toNat ≤ 0x6FF)

/-- A Gregorian civil date, as carried by Python `datetime.date`. -/
structure Date where
  year : Int
  month : Int
  day : Int
deriving DecidableEq, Repr

/-- `jdatetime` month lengths (Farvardin..Esfand), `j_days_in_month`. -/
def jDaysInMonth : List Int := [31, 31, 31, 31, 31, 31, 30, 30, 30, 30, 30, 29]

/-- Gregorian month lengths for a non-leap year, `g_days_in_month`. -/
def gDaysInMonthList : List Int := [31, 28, 31, 30, 31, 30, 31, 31, 30, 31, 30, 31]

/-- `jdatetime.date.isleap`: the 33-year arithmetic cycle rule. -/
def jIsLeap (year : Int) : Bool :=
  let r := year.fmod 33
  r == 1 || r == 5 || r == 9 || r == 13 || r == 17 || r == 22 || r == 26 || r == 30

/-- Field validation performed by the `jdatetime.date` constructor
(`ValueError` outside the ranges): year in MINYEAR = 1 .. MAXYEAR = 9377,
month 1..12, day within the Jalali month length, Esfand (month 12) having a
30th day exactly in leap years. -/
def jdatetimeValid (y m d : Int) : Bool :=
  decide (1 ≤ y) && decide (y ≤ 9377) && decide (1 ≤ m) && decide (m ≤ 12) &&
  decide (1 ≤ d) &&
  (decide (d ≤ jDaysInMonth.getD (m.toNat - 1) 0) || (m == 12 && d == 30 && jIsLeap y))

/-- The final month walk of `jalali.JalaliToGregorian`: starting from month
index 0, subtract month lengths (February lengthened by one in a leap year)
while the remaining day number reaches them. -/
def gMonthWalk : List Int → Bool → Nat → Int → Nat × Int
  | [], _, i, g => (i, g)
  | len :: rest, leap, i, g =>
    let len' := len + (if i == 1 && leap then 1 else 0)
    if len' ≤ g then gMonthWalk rest leap (i + 1) (g - len') else (i, g)

/-- `jdatetime`'s `jalali.JalaliToGregorian` conversion, as run by
`jdatetime.date(...).togregorian()`; Python's floor division `//` and `%` are
`Int.fdiv` / `Int.fmod`. -/
def jalaliToGregorian (jyear jmonth jday : Int) : Date :=
  let jy := jyear - 979
  let jm := jmonth - 1
  let jd := jday - 1
  let jDayNo := 365 * jy + (jy.fdiv 33) * 8 + ((jy.fmod 33 + 3).fdiv 4)
  let jDayNo := jDayNo + (jDaysInMonth.take jm.toNat).foldl (· + ·) 0
  let jDayNo := jDayNo + jd
  let gDayNo := jDayNo + 79
  let gy := 1600 + 400 * (gDayNo.fdiv 146097)
  let gDayNo := gDayNo.fmod 146097
  let step : Int × Int × Bool :=
    if 36525 ≤ gDayNo then
      let g := gDayNo - 1
      let gy := gy + 100 * (g.fdiv 36524)
      let g := g.fmod 36524
      if 365 ≤ g then (gy, g + 1, true) else (gy, g, false)
    else (gy, gDayNo, true)
  let gy := step.1
  let gDayNo := step.2.1
  let leap := step.2.2
  let gy := gy + 4 * (gDayNo.fdiv 1461)
  let gDayNo := gDayNo.fmod 1461
  let step2 : Int × Int × Bool :=
    if 366 ≤ gDayNo then
      let g := gDayNo - 1
      (gy + g.fdiv 365, g.fmod 365, false)
    else (gy, gDayNo, leap)
  let walk := gMonthWalk gDaysInMonthList step2.2.2 0 step2.2.1
  ⟨step2.1, (walk.1 : Int) + 1, walk.2 + 1⟩

/-- Gregorian leap year, as validated by Python `datetime.date`. -/
def gregIsLeap (y : Int) : Bool :=
  y.fmod 4 == 0 && (y.fmod 100 != 0 || y.fmod 400 == 0)

def gregMonthLen (y m : Int) : Int :=
  if m == 2 then (if gregIsLeap y then 29 else 28)
  else gDaysInMonthList.getD (m.toNat - 1) 0

/-- Python `datetime.date(y, m, d)`: `ValueError` (modelled `none`) outside
year 1..9999, month 1..12, day 1..month length. -/
def pyDate? (y m d : Int) : Option Date :=
  if decide (1 ≤ y) && decide (y ≤ 9999) && decide (1 ≤ m) && decide (m ≤ 12) &&
     decide (1 ≤ d) && decide (d ≤ gregMonthLen y m) then
    some ⟨y, m, d⟩
  else none

/-- The Jalali month-name table `PERSIAN_MONTHS` of `utils.py`. -/
def PERSIAN_MONTHS : List (String × Int) :=
  [("فروردین", 1), ("اردیبهشت", 2), ("خرداد", 3), ("تیر", 4), ("مرداد", 5),
   ("شهریور", 6), ("مهر", 7), ("آبان", 8), ("آذر", 9), ("دی", 10),
   ("بهمن", 11), ("اسفند", 12)]

/-- `PERSIAN_MONTHS.get(month_str)` (case-sensitive exact match). -/
def lookupPersianMonth (tok : List Char) : Option Int :=
  (PERSIAN_MONTHS.find? (fun p => p.1.data == tok)).map (fun p => p.2)

/-- The English month-name table behind `strptime`'s `%B`, lowercased
(`strptime` matches month names case-insensitively). -/
def ENGLISH_MONTHS : List (String × Int) :=
  [("january", 1), ("february", 2), ("march", 3), ("april", 4), ("may", 5),
   ("june", 6), ("july", 7), ("august", 8), ("september", 9), ("october", 10),
   ("november", 11), ("december", 12)]

def lookupEnglishMonth (tok : List Char) : Option Int :=
  (ENGLISH_MONTHS.find? (fun p => p.1.data == tok)).map (fun p => p.2)

/-- `strptime`'s `%Y`: exactly four decimal digits. -/
def gregYear? (l : List Char) : Option Int :=
  if l.length == 4 then (digitRun? l).map (fun n => (n : Int)) else none

/-- `strptime`'s `%d`: the pattern 3[01] | [12][0-9] | 0[1-9] | [1-9]. -/
def gregDay? (l : List Char) : Option Int :=
  match l with
  | [a] => if '1' ≤ a && a ≤ '9' then some ((a.toNat : Int) - 48) else none
  | [a, b] =>
    if isAsciiDigit a && isAsciiDigit b then
      let v : Int := (a.toNat - 48) * 10 + (b.toNat - 48)
      if 1 ≤ v && v ≤ 31 && a ≠ '0' || (a == '0' && b ≠ '0') then some v else none
    else none
  | _ => none

/-- The numeric `Y/M/D` branch of `utils.parse_jalali_date`: three
`int`-parsed components (a failure raises `ValueError`, caught to `None`);
when classified Jalali, `jdatetime.date(y, m, d).togregorian()`, else
`datetime.date(y, m, d)`. -/
def parse_jalali_numeric (isJalali : Bool) (ys ms ds : List Char) : Option Date :=
  match pyInt? ys, pyInt? ms, pyInt? ds with
  | some y, some m, some d =>
    if isJalali then
      if jdatetimeValid y m d then some (jalaliToGregorian y m d) else none
    else pyDate? y m d
  | _, _, _ => none

/-- The textual three-token branch of `utils.parse_jalali_date`.  Jalali:
`day monthName year` against `PERSIAN_MONTHS` (the order of the raised
`ValueError`s is immaterial to the returned value — every failure yields
`None`).  Gregorian: `strptime(cleaned, "%Y %B %d")`, which on a stripped
three-token string decomposes into `%Y`, `%B`, `%d` matching the tokens. -/
def parse_textual (isJalali : Bool) (cleaned : List Char) : Option Date :=
  match pySplitWs cleaned with
  | [p1, p2, p3] =>
    if isJalali then
      match pyInt? p1, pyInt? p3, lookupPersianMonth p2 with
      | some d, some y, some m =>
        if jdatetimeValid y m d then some (jalaliToGregorian y m d) else none
      | _, _, _ => none
    else
      match gregYear? p1, lookupEnglishMonth (pyLower p2), gregDay? p3 with
      | some y, some m, some d => pyDate? y m d
      | _, _, _ => none
  | _ => none

/-- `utils.parse_jalali_date`.  The guard `"/" in cleaned and
len(cleaned.split("/")) == 3` is equivalent to the split having exactly three
parts (one part when there is no slash); when it fails, control falls through
to the textual branch on the same cleaned string. -/
def parse_jalali_date (s : String) : Option Date :=
  if s.data.isEmpty then none
  else
    match splitOnSlash (convert_persian_digits_to_english (pyStrip s.data)) with
    | [ys, ms, ds] => parse_jalali_numeric (contains_persian s) ys ms ds
    | _ => parse_textual (contains_persian s)
        (convert_persian_digits_to_english (pyStrip s.data))

/-- Python `str.isdigit` on one character, over the digit-character classes
reachable in this scraper's locale: the ASCII, Arabic-Indic
(U+0660..U+0669) and Extended Arabic-Indic (U+06F0..U+06F9) decimal digits,
and the superscript digits (U+00B9, U+00B2, U+00B3, U+2070,
U+2074..U+2079), which satisfy `isdigit` without being decimal digits.
Every other `isdigit` character of Unicode behaves like one of these two
classes under `int()`. -/
def pyIsDigitChar (c : Char) : Bool :=
  isAsciiDigit c ||
  (0x660 ≤ c.toNat && c.toNat ≤ 0x669) || (0x6F0 ≤ c.toNat && c.toNat ≤ 0x6F9) ||
  c.toNat = 0xB9 || c.toNat = 0xB2 || c.toNat = 0xB3 || c.toNat = 0x2070 ||
  (0x2074 ≤ c.toNat && c.toNat ≤ 0x2079)

/-- The decimal value of a Unicode decimal (Nd) digit character; the
superscript digits — `isdigit` but not decimal — have none, and Python
`int()` raises `ValueError` on them. -/
def decDigitVal? (c : Char) : Option Nat :=
  if isAsciiDigit c then some (c.toNat - 48)
  else if 0x660 ≤ c.toNat && c.toNat ≤ 0x669 then some (c.toNat - 0x660)
  else if 0x6F0 ≤ c.toNat && c.toNat ≤ 0x6F9 then some (c.toNat - 0x6F0)
  else none

/-- Python `int()` on a run of `isdigit` characters: the base-10 value when
every character is a decimal digit, `ValueError` (`none`) otherwise. -/
def decimalRun? : List Char → Nat → Option Nat
  | [], acc => some acc
  | c :: rest, acc =>
    match decDigitVal? c with
    | some v => decimalRun? rest (acc * 10 + v)
    | none => none

/-- `utils.parse_installs`.  `none` as input models Python `None`; a `none`
result models an uncaught exception: the two multiplier branches call
`int(float(number) * 1000)` outside any `try`, so a malformed numeral raises
`ValueError` out of the function, and the digit-filtering branch keeps every
`isdigit` character but `int` then rejects the non-decimal ones (int('²')
raises), also outside any `try`. -/
def parse_installs (installs_str : Option String) : Option Int :=
  match installs_str with
  | none => some 0
  | some s =>
    if s.data.isEmpty then some 0
    else
      let text := convert_persian_digits_to_english s.data
      let text := pyLower (pyStrip (pyReplace text ['+'] []))
      if containsSub "هزار".data text then
        let number := pyStrip (pyReplace text "هزار".data [])
        (pyFloat? number).map (fun v => decTrunc (v.1 * 1000, v.2))
      else if containsSub ['k'] text then
        let number := pyStrip (pyReplace text ['k'] [])
        (pyFloat? number).map (fun v => decTrunc (v.1 * 1000, v.2))
      else
        let number := text.filter pyIsDigitChar
        if number.isEmpty then some 0
        else (decimalRun? number 0).map (fun n => (n : Int))

/-- `utils.parse_size`.  Total: the final `int(float(text))` is inside
`try/except ValueError`, which returns 0.  Note the second unit check is for
the uppercase literal `'MB'` on the already lowercased text, so it never
fires — embedded exactly as written.  Not modelled: `int(float(...))` can
raise an uncaught `OverflowError` when the float overflows to infinity
(spellings like "inf" or exponents beyond the IEEE double range), since
only `ValueError` is caught; the inputs reasoned about below are finite
decimals far inside that range. -/
def parse_size (size_str : Option String) : Int :=
  match size_str with
  | none => 0
  | some s =>
    if s.data.isEmpty then 0
    else
      let text := convert_persian_digits_to_english s.data
      let text := pyLower (pyStrip text)
      let text :=
        if containsSub "مگابایت".data text then pyStrip (pyReplace text "مگابایت".data [])
        else if containsSub "MB".data text then pyStrip (pyReplace text "MB".data [])
        else text
      match pyFloat? text with
      | some v => decTrunc v
      | none => 0

/-!  Comment extraction (`scraper.extract_comment_details`).  A Selenium
`WebElement` is abstracted to the sub-features the function reads:
`get_attribute("id")` (returns `None` when absent, raising nothing), the
optional username and body elements (given by their `.text`, `none` when
`find_element` raises `NoSuchElementException`), the optional rating fill
element (given by its `style` attribute value, itself optional), and the
optional metadata container (given by the `.text` of its `./div` children).
-/

structure CommentElement where
  idAttr : Option String
  usernameEl : Option String
  bodyEl : Option String
  ratingEl : Option (Option String)
  metaChildren : Option (List String)

/-- The raw field-bag returned by `extract_comment_details`. -/
structure RawComment where
  id : Option String
  username : Option String
  text : Option String
  rating : Option Int
  date : Option String
deriving DecidableEq, Repr

/-- Python `round` at the call `round(percent / 20)`: nearest integer, ties
to even (the quotients with fractional part 1/2 are exactly representable,
so the float call realises exact round-half-to-even). -/
def pyRoundDiv20 (p : Int) : Int :=
  let q := p.fdiv 20
  let r := p.fmod 20
  if r < 10 then q
  else if 10 < r then q + 1
  else if q.fmod 2 == 0 then q else q + 1

def pyStripStr (s : String) : String := String.mk (pyStrip s.data)

/-- `scraper.extract_comment_details`: five independently guarded
extractions; each `except` clause nulls only its own field. -/
def extract_comment_details (el : CommentElement) : RawComment :=
  let external_id := el.idAttr
  let username :=
    match el.usernameEl with
    | none => none
    | some t => some (pyStripStr t)
  let body :=
    match el.bodyEl with
    | none => none
    | some t => some (pyStripStr t)
  let rating :=
    match el.ratingEl with
    | none => none
    | some styleOpt =>
      let percent? : Option Int :=
        match styleOpt with
        | none => some 0
        | some st =>
          if st.data.isEmpty then some 0
          else
            pyInt? (pyStrip (pyReplace (pyReplace (pyReplace st.data
              "width:".data []) "%;".data []) ['%'] []))
      match percent? with
      | none => none
      | some p => some (pyRoundDiv20 p)
  let date :=
    match el.metaChildren with
    | none => none
    | some kids =>
      if 1 < kids.length then some (pyStripStr (kids.getD 1 "")) else some ""
  { id := external_id, username := username, text := body,
    rating := rating, date := date }

/-- The rating field of `extract_comment_details` as a function of the
rating fill element alone (the body of its `try` block). -/
def ratingField (r : Option (Option String)) : Option Int :=
  match r with
  | none => none
  | some styleOpt =>
    let percent? : Option Int :=
      match styleOpt with
      | none => some 0
      | some st =>
        if st.data.isEmpty then some 0
        else
          pyInt? (pyStrip (pyReplace (pyReplace (pyReplace st.data
            "width:".data []) "%;".data []) ['%'] []))
    match percent? with
    | none => none
    | some p => some (pyRoundDiv20 p)

/-- The date field of `extract_comment_details` as a function of the
metadata container alone (the body of its `try` block). -/
def dateField (mc : Option (List String)) : Option String :=
  match mc with
  | none => none
  | some kids =>
    if 1 < kids.length then some (pyStripStr (kids.getD 1 "")) else some ""

/-!  The pagination loop of `scraper.extract_all_comment_elements`.  At each
iteration `WebDriverWait(wd, 10).until(presence_of_element_located(...))`
either locates the load-more control — the loop scrolls it into view,
sleeps, clicks, sleeps and repeats — or raises `TimeoutException` after the
10-second wait, which the bare `except` catches, ending the loop (the
`else: break` arm is unreachable because `until` never returns a falsy
value).  The session is abstracted to the boolean wait outcome per iteration
and the list of comment elements present when the loop ends.  `fuel` bounds
the modelled execution; `none` means the loop was still running. -/

def loadMoreLoop (trace : Nat → Bool) : Nat → Nat → Option Nat
  | _, 0 => none
  | i, fuel + 1 => if trace i then loadMoreLoop trace (i + 1) fuel else some i

/-- `scraper.extract_all_comment_elements` after navigation: run the
load-more loop from iteration 0; once it ends, return every comment element
currently present. -/
def extract_all_comment_elements (trace : Nat → Bool) (present : List Nat)
    (fuel : Nat) : Option (List Nat) :=
  (loadMoreLoop trace 0 fuel).map (fun _ => present)

/-!  Theorems. -/

/-- Claim C1 as stated is false: the textual Jalali string parses to the
canonical Gregorian date 2025-06-22, while "1404/4/1" contains no Persian
character, is therefore classified Gregorian, and is constructed directly as
the (nonsensical) Gregorian date 1404-04-01 — the two results differ. -/
theorem c1_counterexample :
    parse_jalali_date "۱ تیر ۱۴۰۴" = some ⟨2025, 6, 22⟩ ∧
    parse_jalali_date "1404/4/1" = some ⟨1404, 4, 1⟩ ∧
    parse_jalali_date "۱ تیر ۱۴۰۴" ≠ parse_jalali_date "1404/4/1" := by
  refine ⟨by decide, by decide, by decide⟩

/-- Claim C1, amended: the Jalali textual string "۱ تیر ۱۴۰۴" and the
numeric layout written in Persian digits "۱۴۰۴/۴/۱" (which is classified
Jalali) parse to the same canonical Gregorian date, 2025-06-22. -/
theorem c1_two_layouts_same_date :
    parse_jalali_date "۱ تیر ۱۴۰۴" = parse_jalali_date "۱۴۰۴/۴/۱" ∧
    parse_jalali_date "۱ تیر ۱۴۰۴" = some ⟨2025, 6, 22⟩ := by
  refine ⟨by decide, by decide⟩

/-- Claim C2: `parse_installs` is not total.  On the input "هزار" (a
thousand-multiplier token with no numeral) the multiplier branch evaluates
`float("")`, which raises `ValueError` outside any `try` — modelled as the
`none` result — instead of returning the sentinel 0 promised by the claim
and by the function's own docstring.  The neighbouring facts show the
intended behaviour on well-formed input. -/
theorem c2_parse_installs_raises_on_bare_multiplier :
    parse_installs (some "هزار") = none ∧
    parse_installs none = some 0 ∧
    parse_installs (some "۱۰ هزار") = some 10000 := by
  refine ⟨by decide, by decide, by decide⟩

/-- Claim C3: the example `parseSizeMegabytes("48.7MB") = 48` fails on the
code.  `parse_size` lowercases the text before checking for the
case-sensitive token "MB", so the unit is never stripped (last conjunct:
the branch guard is false on the lowercased text), `float("48.7mb")` raises
`ValueError`, and the `except` returns 0.  The other two examples hold. -/
theorem c3_parse_size_examples :
    parse_size (some "48.7MB") = 0 ∧
    parse_size (some "۲۱۵ مگابایت") = 215 ∧
    parse_size (some "") = 0 ∧
    containsSub "MB".data (pyLower (pyStrip "48.7MB".data)) = false := by
  refine ⟨by decide, by decide, by decide, by decide⟩

/-- Claim C4: for every input string classified Jalali whose cleaned form
splits on "/" into exactly three `int`-parseable components forming a valid
Jalali date, `parse_jalali_date` returns the Gregorian date produced by the
civil-calendar conversion of the (year, month, day) triple; and that
conversion sends Jalali 1404-04-01 to Gregorian 2025-06-22. -/
theorem c4_jalali_numeric_conversion :
    (∀ (s : String) (ys ms ds : List Char) (y m d : Int),
        contains_persian s = true →
        splitOnSlash (convert_persian_digits_to_english (pyStrip s.data)) = [ys, ms, ds] →
        pyInt? ys = some y → pyInt? ms = some m → pyInt? ds = some d →
        jdatetimeValid y m d = true →
        parse_jalali_date s = some (jalaliToGregorian y m d)) ∧
    jalaliToGregorian 1404 4 1 = ⟨2025, 6, 22⟩ := by
  constructor
  · intro s ys ms ds y m d hper hsplit hy hm hd hvalid
    have hne : s.data.isEmpty = false := by
      cases hl : s.data with
      | nil => rw [contains_persian, hl] at hper; simp at hper
      | cons a t => simp [hl]
    unfold parse_jalali_date
    rw [hne]
    simp only [Bool.false_eq_true, if_false]
    rw [hsplit]
    simp only [parse_jalali_numeric, hy, hm, hd, hper, hvalid, if_true]
  · decide

theorem c4_jalali_numeric_conversion_witness :
    parse_jalali_date "۱۳۹۹/۱/۱" = some (jalaliToGregorian 1399 1 1) :=
  c4_jalali_numeric_conversion.1 "۱۳۹۹/۱/۱" "1399".data "1".data "1".data
    1399 1 1 (by decide) (by decide) (by decide) (by decide) (by decide) (by decide)

/-- Claim C5 as stated is false: `parse_size` forwards the sign accepted by
`float`, so the input "-3" yields the negative value -3, not a non-negative
integer. -/
theorem c5_counterexample :
    parse_size (some "-3") = -3 ∧ parse_size (some "-3") < 0 := by
  refine ⟨by decide, by decide⟩

/-- Claim C5, amended: absent or empty input normalizes to 0, never null,
and every value the digit-filtering branch of `parse_installs` returns is
non-negative (the filter drops sign characters) — including on Persian- and
Arabic-Indic-digit inputs, which Python's `int` parses; but that branch
raises (instead of returning 0) on `isdigit`-but-non-decimal characters
such as '²', and the sign-accepting branches of `parse_installs` and
`parse_size` can return negative values. -/
theorem c5_zero_sentinel_and_digit_branch :
    parse_installs none = some 0 ∧ parse_size none = 0 ∧
    parse_installs (some "") = some 0 ∧ parse_size (some "") = 0 ∧
    parse_installs (some "۵۰۰+") = some 500 ∧
    parse_installs (some "٥٠") = some 50 ∧
    parse_installs (some "²") = none ∧
    (∀ (s : String) (n : Int),
      containsSub "هزار".data (pyLower (pyStrip (pyReplace
        (convert_persian_digits_to_english s.data) ['+'] []))) = false →
      containsSub ['k'] (pyLower (pyStrip (pyReplace
        (convert_persian_digits_to_english s.data) ['+'] []))) = false →
      parse_installs (some s) = some n → 0 ≤ n) := by
  refine ⟨by decide, by decide, by decide, by decide, by decide, by decide,
    by decide, ?_⟩
  intro s n h1 h2 hret
  by_cases he : s.data.isEmpty = true
  · simp [parse_installs, he] at hret
    omega
  · have he' : s.data.isEmpty = false := by simpa using he
    simp only [parse_installs, he', Bool.false_eq_true, if_false, h1, h2] at hret
    by_cases hnum : (List.filter pyIsDigitChar (pyLower (pyStrip (pyReplace
        (convert_persian_digits_to_english s.data) ['+'] [])))).isEmpty = true
    · simp [hnum] at hret
      omega
    · have hnum' : (List.filter pyIsDigitChar (pyLower (pyStrip (pyReplace
          (convert_persian_digits_to_english s.data) ['+'] [])))).isEmpty = false := by
        simpa using hnum
      simp only [hnum', Bool.false_eq_true, if_false] at hret
      cases hd : decimalRun? (List.filter pyIsDigitChar (pyLower (pyStrip (pyReplace
          (convert_persian_digits_to_english s.data) ['+'] [])))) 0 with
      | none => rw [hd] at hret; cases hret
      | some m =>
        rw [hd] at hret
        simp at hret
        omega

theorem c5_zero_sentinel_and_digit_branch_witness :
    parse_installs (some "1000+") = some 1000 ∧ (0 : Int) ≤ 1000 :=
  ⟨by decide, c5_zero_sentinel_and_digit_branch.2.2.2.2.2.2.2 "1000+" 1000
    (by decide) (by decide) (by decide)⟩

/-- Claim C6 as stated is false: when the metadata container is present but
has only one child element, the guard `if len(child_divs) > 1 else ""` sets
the date to the empty string, not to null. -/
theorem c6_counterexample :
    (extract_comment_details ⟨some "c1", some "u", some "b",
      some (some "width: 80%;"), some ["x"]⟩).date = some "" ∧
    (extract_comment_details ⟨some "c1", some "u", some "b",
      some (some "width: 80%;"), some ["x"]⟩).date ≠ none := by
  refine ⟨by decide, by decide⟩

/-- Claim C6, amended: the date is the stripped text of the second child of
the metadata container; when the container exists but has fewer than two
children the date is the empty string (found-but-blank), and it is null
exactly when the container itself is missing. -/
theorem c6_date_field_cases :
    (∀ e : CommentElement, e.metaChildren = none →
      (extract_comment_details e).date = none) ∧
    (∀ (e : CommentElement) (kids : List String), e.metaChildren = some kids →
      kids.length ≤ 1 → (extract_comment_details e).date = some "") ∧
    (∀ (e : CommentElement) (kids : List String), e.metaChildren = some kids →
      1 < kids.length →
      (extract_comment_details e).date = some (pyStripStr (kids.getD 1 ""))) := by
  refine ⟨?_, ?_, ?_⟩
  · intro e h; simp [extract_comment_details, h]
  · intro e kids h hk; simp [extract_comment_details, h, Nat.not_lt.mpr hk]
  · intro e kids h hk; simp [extract_comment_details, h, hk]

theorem c6_date_field_cases_witness :
    (extract_comment_details ⟨none, none, none, none, some ["only"]⟩).date = some "" :=
  c6_date_field_cases.2.1 ⟨none, none, none, none, some ["only"]⟩ ["only"] rfl (by decide)

/-- Claim C7 as stated is false: when the fill indicator is present but its
`style` attribute is absent (or empty), the code defaults the percentage to
0 and produces the rating 0 — not null as the claim requires for an absent
percentage. -/
theorem c7_counterexample :
    (extract_comment_details ⟨some "c2", some "u", some "b", some none,
      some ["a", "d"]⟩).rating = some 0 ∧
    (extract_comment_details ⟨some "c2", some "u", some "b", some none,
      some ["a", "d"]⟩).rating ≠ none := by
  refine ⟨by decide, by decide⟩

/-- Claim C7, amended: rating is null when the fill indicator is absent or
its style percentage is non-numeric; when the indicator is present with an
absent or empty style the percentage defaults to 0 giving rating 0; a
numeric percentage p is converted to round(p / 20) with ties to even
(30% → 2 and 50% → 2), which maps 0..100 into 0..5. -/
theorem c7_rating_cases :
    (∀ e : CommentElement, e.ratingEl = none →
      (extract_comment_details e).rating = none) ∧
    (∀ e : CommentElement, e.ratingEl = some none →
      (extract_comment_details e).rating = some 0) ∧
    (∀ (e : CommentElement) (st : String), e.ratingEl = some (some st) →
      st.data.isEmpty = false →
      pyInt? (pyStrip (pyReplace (pyReplace (pyReplace st.data
        "width:".data []) "%;".data []) ['%'] [])) = none →
      (extract_comment_details e).rating = none) ∧
    (∀ (e : CommentElement) (st : String) (p : Int), e.ratingEl = some (some st) →
      st.data.isEmpty = false →
      pyInt? (pyStrip (pyReplace (pyReplace (pyReplace st.data
        "width:".data []) "%;".data []) ['%'] [])) = some p →
      (extract_comment_details e).rating = some (pyRoundDiv20 p)) ∧
    (∀ p : Int, 0 ≤ p → p ≤ 100 → 0 ≤ pyRoundDiv20 p ∧ pyRoundDiv20 p ≤ 5) ∧
    (pyRoundDiv20 30 = 2 ∧ pyRoundDiv20 50 = 2) := by
  refine ⟨?_, ?_, ?_, ?_, ?_, by decide, by decide⟩
  · intro e h; simp [extract_comment_details, h]
  · intro e h; simp [extract_comment_details, h]; decide
  · intro e st h hne hint; simp [extract_comment_details, h, hne, hint]
  · intro e st p h hne hint; simp [extract_comment_details, h, hne, hint]
  · intro p h1 h2
    interval_cases p <;> exact ⟨by decide, by decide⟩

theorem c7_rating_cases_witness :
    (extract_comment_details ⟨none, none, none, some (some "width: 70%;"),
      none⟩).rating = some (pyRoundDiv20 70) :=
  c7_rating_cases.2.2.2.1 ⟨none, none, none, some (some "width: 70%;"), none⟩
    "width: 70%;" 70 rfl (by decide) (by decide)

/-- Claim C8: extraction never aborts and is per-field independent — the
result decomposes field by field, each field a function of its own
sub-element only; in particular an element missing only its rating indicator
yields rating null with every other field populated from its sub-element. -/
theorem c8_fields_independent :
    (∀ e : CommentElement,
      extract_comment_details e =
        { id := e.idAttr, username := e.usernameEl.map pyStripStr,
          text := e.bodyEl.map pyStripStr, rating := ratingField e.ratingEl,
          date := dateField e.metaChildren }) ∧
    (∀ (i u b : String) (m : List String),
      (extract_comment_details ⟨some i, some u, some b, none, some m⟩).rating = none ∧
      (extract_comment_details ⟨some i, some u, some b, none, some m⟩).id = some i ∧
      (extract_comment_details ⟨some i, some u, some b, none, some m⟩).username
        = some (pyStripStr u) ∧
      (extract_comment_details ⟨some i, some u, some b, none, some m⟩).text
        = some (pyStripStr b) ∧
      (extract_comment_details ⟨some i, some u, some b, none, some m⟩).date.isSome
        = true) := by
  constructor
  · intro e
    cases e with
    | mk idAttr usernameEl bodyEl ratingEl metaChildren =>
      cases usernameEl <;> cases bodyEl <;>
        simp [extract_comment_details, ratingField, dateField]
  · intro i u b m
    refine ⟨rfl, rfl, rfl, rfl, ?_⟩
    simp only [extract_comment_details]
    split <;> rfl

/-- Monotone stopping of the load-more loop: when the wait at some iteration
`n` raises `TimeoutException`, the loop started at iteration `i ≤ n` with
enough fuel stops at the first such iteration, no later than `n`. -/
theorem loadMoreLoop_stops (trace : Nat → Bool) :
    ∀ (fuel i n : Nat), trace n = false → i ≤ n → n < i + fuel →
      ∃ k, i ≤ k ∧ k ≤ n ∧ loadMoreLoop trace i fuel = some k := by
  intro fuel
  induction fuel with
  | zero => intro i n _ hin hlt; omega
  | succ f ih =>
    intro i n h hin hlt
    by_cases hi : trace i = true
    · have hne : i ≠ n := by
        intro he; rw [he, h] at hi; cases hi
      obtain ⟨k, h1, h2, h3⟩ := ih (i + 1) n h (by omega) (by omega)
      exact ⟨k, by omega, h2, by simpa [loadMoreLoop, hi] using h3⟩
    · have hi' : trace i = false := by simpa using hi
      exact ⟨i, le_refl i, hin, by simp [loadMoreLoop, hi']⟩

/-- Claim C9: whenever some iteration's control-location wait times out, the
pagination loop of `extract_all_comment_elements` terminates within a
bounded number of steps (no later than the first timed-out iteration), the
timeout is absorbed as normal completion, and the comment elements currently
present are returned — however many were revealed before the timeout. -/
theorem c9_pagination_terminates :
    ∀ (trace : Nat → Bool) (present : List Nat) (n fuel : Nat),
      trace n = false → n < fuel →
      ∃ k, k ≤ n ∧ loadMoreLoop trace 0 fuel = some k ∧
        extract_all_comment_elements trace present fuel = some present := by
  intro trace present n fuel h hlt
  obtain ⟨k, _, h2, h3⟩ :=
    loadMoreLoop_stops trace fuel 0 n h (Nat.zero_le n) (by omega)
  exact ⟨k, h2, h3, by simp [extract_all_comment_elements, h3]⟩

theorem c9_pagination_terminates_witness :
    ∃ k, k ≤ 3 ∧ loadMoreLoop (fun i => decide (i < 3)) 0 10 = some k ∧
      extract_all_comment_elements (fun i => decide (i < 3)) [7, 8] 10 = some [7, 8] :=
  c9_pagination_terminates (fun i => decide (i < 3)) [7, 8] 3 10 (by decide) (by decide)

/-- Claim C10: classification runs on the raw string before digit
normalization.  A date written in Eastern-Arabic digits contains characters
of U+0600..U+06FF, is classified Jalali and converted (to 2025-06-22), while
the same date in Latin digits has no Persian character and is built directly
as Gregorian 1404-04-01; after digit normalization the Persian-digit string
would no longer be classified Jalali (last conjunct). -/
theorem c10_classification_on_raw_input :
    contains_persian "۱۴۰۴/۰۴/۰۱" = true ∧
    parse_jalali_date "۱۴۰۴/۰۴/۰۱" = some ⟨2025, 6, 22⟩ ∧
    contains_persian "1404/04/01" = false ∧
    parse_jalali_date "1404/04/01" = some ⟨1404, 4, 1⟩ ∧
    contains_persian (String.mk (convert_persian_digits_to_english
      "۱۴۰۴/۰۴/۰۱".data)) = false := by
  refine ⟨by decide, by decide, by decide, by decide, by decide⟩

end AppScraper
